import Mathlib

/-!
Verification of the `aura-arch` orphan-detection library.

The library exposes two default-path constants and a single function
`orphans`, which filters the local package database for packages that were
installed as dependencies and are no longer required (hard or optionally)
by any installed package. We embed the package record with exactly the
attributes the filter consumes, and the filter itself as a `List.filter`.
-/

namespace AuraArch

/-- The default "root" filepath as required by `alpm`.
    Source: `pub const DEFAULT_ROOT: &str = "/";` -/
def DEFAULT_ROOT : String := "/"

/-- The default filepath of the pacman/libalpm database.
    Source: `pub const DEFAULT_DB: &str = "/var/lib/pacman/";` -/
def DEFAULT_DB : String := "/var/lib/pacman/"

/-- The `alpm::PackageReason` enumeration: why a package was installed. -/
inductive PackageReason where
  | Explicit : PackageReason
  | Depend : PackageReason
deriving DecidableEq, Repr

/-- An installed package record, restricted to the attributes the orphan
    filter reads: `reason()`, `required_by()` and `optional_for()`.
    A name field is kept to distinguish records. -/
structure Package where
  name : String
  reason : PackageReason
  required_by : List String
  optional_for : List String
deriving DecidableEq, Repr

/-- The filter closure inside `orphans`:
    `p.reason() == PackageReason::Depend && p.required_by().is_empty()
       && p.optional_for().is_empty()`. -/
def isOrphan (p : Package) : Bool :=
  p.reason == PackageReason.Depend
    && p.required_by.isEmpty
    && p.optional_for.isEmpty

/-- All orphaned packages.
    Source: `alpm.localdb().pkgs().iter().filter(|p| ...).collect()`.
    The local database snapshot is the ordered sequence `localdb`. -/
def orphans (localdb : List Package) : List Package :=
  localdb.filter isOrphan

/-- Scenario shape A: explicitly installed, depended on by nothing. -/
def shapeA (p : Package) : Prop :=
  p.reason = PackageReason.Explicit ∧ p.required_by = [] ∧ p.optional_for = []

/-- Scenario shape B: installed as a dependency, required by "pkgX". -/
def shapeB (p : Package) : Prop :=
  p.reason = PackageReason.Depend ∧ p.required_by = ["pkgX"]

/-- Scenario shape C: installed as a dependency, required by nothing,
    optional for "pkgY". -/
def shapeC (p : Package) : Prop :=
  p.reason = PackageReason.Depend ∧ p.required_by = [] ∧
    p.optional_for = ["pkgY"]

/-- Scenario shape D: installed as a dependency, required by nothing,
    optional for nothing — an orphan. -/
def shapeD (p : Package) : Prop :=
  p.reason = PackageReason.Depend ∧ p.required_by = [] ∧ p.optional_for = []

/-- A concrete Scenario A record. -/
def pkgA : Package := ⟨"a", PackageReason.Explicit, [], []⟩

/-- A concrete Scenario B record. -/
def pkgB : Package := ⟨"b", PackageReason.Depend, ["pkgX"], []⟩

/-- A concrete Scenario C record. -/
def pkgC : Package := ⟨"c", PackageReason.Depend, [], ["pkgY"]⟩

/-- A concrete Scenario D record. -/
def pkgD : Package := ⟨"d", PackageReason.Depend, [], []⟩

/-- A record satisfies the filter closure iff its reason is `Depend` and
    both dependency sets are empty. -/
lemma isOrphan_iff (p : Package) :
    isOrphan p = true ↔
      p.reason = PackageReason.Depend ∧ p.required_by = [] ∧
        p.optional_for = [] := by
  simp [isOrphan, List.isEmpty_iff, and_assoc]

/-- Membership in the output of `orphans` is membership in the input
    together with the filter closure holding. -/
lemma mem_orphans_iff (p : Package) (s : List Package) :
    p ∈ orphans s ↔ p ∈ s ∧ isOrphan p = true := by
  simp [orphans, List.mem_filter]

/-- C1: For every snapshot, a package record appears in the output of
    `orphans` iff its install reason is `Depend`, its `required_by` set is
    empty, and its `optional_for` set is empty; every output record
    satisfies all three conditions and no input record satisfying all
    three is excluded. -/
theorem orphans_sound_complete (p : Package) (s : List Package) :
    p ∈ orphans s ↔
      p ∈ s ∧ p.reason = PackageReason.Depend ∧ p.required_by = [] ∧
        p.optional_for = [] := by
  rw [mem_orphans_iff, isOrphan_iff]

/-- C2: For every snapshot, the output of `orphans` is an ordered
    subsequence of the input: the relative order of surviving records
    matches their relative order in the input snapshot. -/
theorem orphans_sublist (s : List Package) : (orphans s).Sublist s :=
  List.filter_sublist s

/-- C3: The filter underlying `orphans` is idempotent: applying it to its
    own output yields that output unchanged. -/
theorem orphans_idempotent (s : List Package) :
    orphans (orphans s) = orphans s := by
  simp [orphans, List.filter_filter]

/-- C4: For a snapshot consisting of exactly one record of each of the
    four scenario shapes A–D, in any order, `orphans` returns exactly the
    Scenario D record (trivially in its original relative position, being
    the only survivor). -/
theorem orphans_scenarioE (a b c d : Package) (s : List Package)
    (ha : shapeA a) (hb : shapeB b) (hc : shapeC c) (hd : shapeD d)
    (hs : s.Perm [a, b, c, d]) : orphans s = [d] := by
  have hfa : isOrphan a = false := by
    rcases ha with ⟨h1, _, _⟩
    simp [isOrphan, h1]
  have hfb : isOrphan b = false := by
    rcases hb with ⟨_, h2⟩
    simp [isOrphan, h2]
  have hfc : isOrphan c = false := by
    rcases hc with ⟨_, _, h3⟩
    simp [isOrphan, h3]
  have hfd : isOrphan d = true := (isOrphan_iff d).mpr hd
  have hperm : (orphans s).Perm (orphans [a, b, c, d]) := hs.filter isOrphan
  have heq : orphans [a, b, c, d] = [d] := by
    simp [orphans, List.filter, hfa, hfb, hfc, hfd]
  rw [heq] at hperm
  exact List.Perm.eq_singleton hperm

/-- Witness for C4 at concrete records, with the snapshot in source
    order. -/
theorem orphans_scenarioE_witness : orphans [pkgA, pkgB, pkgC, pkgD] = [pkgD] :=
  orphans_scenarioE pkgA pkgB pkgC pkgD [pkgA, pkgB, pkgC, pkgD]
    (by constructor <;> simp [pkgA]) (by constructor <;> simp [pkgB])
    (by refine ⟨rfl, rfl, rfl⟩) (by refine ⟨rfl, rfl, rfl⟩)
    (List.Perm.refl _)

/-- C5: Applying `orphans` to an empty snapshot yields an empty output. -/
theorem orphans_empty : orphans [] = [] := rfl

/-- C6: Given a valid snapshot, `orphans` cannot fail: it is total,
    always producing a (possibly empty) output sequence, and the empty
    result is the ordinary value returned when no record passes the
    filter, not an error. -/
theorem orphans_total (s : List Package) :
    ∃ out : List Package, orphans s = out ∧
      (out = [] ↔ ∀ p ∈ s, isOrphan p = false) := by
  refine ⟨orphans s, rfl, ?_⟩
  simp only [orphans, List.filter_eq_nil_iff]
  constructor
  · intro h p hp
    simpa using h p hp
  · intro h p hp
    simp [h p hp]

/-- C7: `orphans` is deterministic and side-effect free: identical
    snapshot inputs yield identical outputs. -/
theorem orphans_deterministic (s₁ s₂ : List Package) (h : s₁ = s₂) :
    orphans s₁ = orphans s₂ := by rw [h]

/-- Witness for C7 at a concrete snapshot. -/
theorem orphans_deterministic_witness :
    orphans [pkgD] = orphans [pkgD] :=
  orphans_deterministic [pkgD] [pkgD] rfl

/-- C8: `orphans` terminates on every finite snapshot and is computed by
    a single linear right-to-left pass over the input sequence: it equals
    one fold that examines each record exactly once. -/
theorem orphans_single_pass (s : List Package) :
    orphans s =
      s.foldr (fun p acc => if isOrphan p then p :: acc else acc) [] := by
  induction s with
  | nil => rfl
  | cons p t ih =>
      simp only [orphans, List.filter, List.foldr] at *
      cases h : isOrphan p <;> simp [h, ih]

/-- C9: Whether a record is included in the output of `orphans` depends
    only on the record's own attributes: a record present in two
    different snapshots is included in both outputs or in neither,
    regardless of the other records. -/
theorem orphans_noninterference (p : Package) (s₁ s₂ : List Package)
    (h₁ : p ∈ s₁) (h₂ : p ∈ s₂) :
    (p ∈ orphans s₁ ↔ p ∈ orphans s₂) := by
  rw [mem_orphans_iff, mem_orphans_iff]
  constructor
  · rintro ⟨_, hp⟩
    exact ⟨h₂, hp⟩
  · rintro ⟨_, hp⟩
    exact ⟨h₁, hp⟩

/-- Witness for C9: `pkgD` in two different snapshots. -/
theorem orphans_noninterference_witness :
    (pkgD ∈ orphans [pkgD] ↔ pkgD ∈ orphans [pkgA, pkgD, pkgB]) :=
  orphans_noninterference pkgD [pkgD] [pkgA, pkgD, pkgB]
    (by simp) (by simp)

/-- C10: The library exposes the two public default-configuration
    constants: `DEFAULT_ROOT` is the string "/" and `DEFAULT_DB` is the
    string "/var/lib/pacman/". -/
theorem default_paths :
    DEFAULT_ROOT = "/" ∧ DEFAULT_DB = "/var/lib/pacman/" :=
  ⟨rfl, rfl⟩

end AuraArch
